import Mathlib

/-!
Shallow embedding of the cache-building pipeline (`generate_cache.py`) and the
query/format layer (`logic.py`) of the evolution-tree lookup application, with
theorems settling the frozen claims about its specification.

Modelling conventions:
* Python dicts used as lookup tables become association lists (`StrMap`) with
  `dictGet` modelling `d.get(k, fallback)` (first binding wins; the pipeline
  produces distinct keys).
* `None` becomes `Option.none`; Python truthiness of optional strings/ints is
  `optStrTruthy` / `optNatTruthy` (`""`, `0` and `None` are falsy).
* The network is an oracle (`Fetcher`): each kind of URL is a field mapping the
  request key to `Option` of the parsed document, exactly the view the code has
  of `fetch_json`'s result.
* Code that can raise a Python exception is modelled in `Except String`, the
  error message naming the exception the interpreter would raise.
-/

abbrev StrMap := List (String × String)

/-- Models `d.get(k, dflt)` on a string-valued dict. -/
def dictGet (m : StrMap) (k dflt : String) : String :=
  match m.find? (fun p => p.1 == k) with
  | some p => p.2
  | none => dflt

/-- Python truthiness of an optional string (`None` and `""` are falsy). -/
def optStrTruthy : Option String → Bool
  | none => false
  | some s => !(s == "")

/-- Python truthiness of an optional integer (`None` and `0` are falsy). -/
def optNatTruthy : Option Nat → Bool
  | none => false
  | some n => !(n == 0)

/-- Python `a or b` for two optional strings (used for sprite fallback). -/
def pyOr (a b : Option String) : Option String :=
  if optStrTruthy a then a else b

/-- Python `a or b` where `b` is a plain string (used for `name_ja or name_en`). -/
def pyOrStr (a : Option String) (b : String) : String :=
  match a with
  | some s => if s == "" then b else s
  | none => b

/-- One entry of a `names` / `form_names` list: `{"name": ..., "language": {"name": ...}}`
with the language object collapsed to its name. -/
structure NameEntry where
  name : String
  language : String
deriving Repr, DecidableEq

/-- One evolution-detail record.  `item`, `trigger` and `known_move` stand for the
`name` inside the corresponding sub-object (`none` when the sub-object is absent
or null). -/
structure EvoDetail where
  trigger : Option String
  min_level : Option Nat
  item : Option String
  min_happiness : Option Nat
  time_of_day : Option String
  known_move : Option String
deriving Repr, DecidableEq

/-- A node of the raw evolution-chain tree: `species` is the species object's
`name`, children live in `evolves_to`. -/
inductive ChainNode : Type where
  | mk (species : String) (evolution_details : List EvoDetail) (evolves_to : List ChainNode)
deriving Repr

def ChainNode.species : ChainNode → String
  | .mk s _ _ => s

def ChainNode.evolution_details : ChainNode → List EvoDetail
  | .mk _ d _ => d

def ChainNode.evolves_to : ChainNode → List ChainNode
  | .mk _ _ c => c

/-- The evolution-chain document: its `chain` key may be missing (`none` models
a document where `chain_data.get("chain", {})` yields `{}`). -/
structure ChainDoc where
  chain : Option ChainNode
deriving Repr

/-- One form record as cached per entity (`extract_form_info`'s result). -/
structure FormInfo where
  name_en : String
  name_ja : String
  img : Option String
  form_label : String
  is_mega : Bool
  evolution_condition : String
deriving Repr

/-- One cached entity record, field names as written by `fetch_pokemon`. -/
structure Pokemon where
  «図鑑番号» : Nat
  «英語名» : String
  «日本語名» : String
  «タイプ» : List String
  «画像» : Option String
  «進化チェーン» : Option ChainDoc
  «フォルム一覧» : List FormInfo
deriving Repr

/-- Models `cache_dict.get(name_en)`: the cache dict keyed by `英語名`, modelled as an
association list in insertion order. -/
def cacheGet (cache : List Pokemon) (name_en : String) : Option Pokemon :=
  cache.find? (fun e => e.«英語名» == name_en)

/-! ### `logic.py`: query / format layer

The module-level memoized loaders (`load_item_name_map`, `load_type_name_map`)
are passed explicitly as `item_map` / `type_map` parameters. -/

/-- Python `str.lower()`, character-wise (kernel-evaluable model of
`String.toLower`). -/
def pyLower (s : String) : String := ⟨s.data.map Char.toLower⟩

/-- Python `str.strip()`: drop whitespace from both ends. -/
def pyStrip (s : String) : String :=
  ⟨((s.data.dropWhile Char.isWhitespace).reverse.dropWhile Char.isWhitespace).reverse⟩

/-- Models `logic.safe_translate(name, mapping)`. -/
def safe_translate (name : String) (mapping : StrMap) : String :=
  dictGet mapping name name

/-- Models `logic.translate_types(types, lang, type_map)`. -/
def translate_types (types : List String) (lang : String) (type_map : StrMap) : List String :=
  if lang == "日本語" then types.map (fun t => safe_translate t type_map) else types

/-- The loop body of `logic.format_evolution_conditions` for one detail record
`d`: the if/elif chain choosing the text appended to `texts`. -/
def formatOneDetail (d : EvoDetail) (lang : String) (item_map : StrMap) : String :=
  let trig := d.trigger.getD ""
  let lvl := d.min_level
  let itm := d.item
  let hp := d.min_happiness
  let tm := d.time_of_day
  let mv := d.known_move
  if lang == "日本語" then
    if trig == "level-up" && optNatTruthy lvl then
      toString (lvl.getD 0) ++ "レベルで進化"
    else if trig == "use-item" && optStrTruthy itm then
      safe_translate (itm.getD "") item_map ++ "を使う"
    else if optNatTruthy hp then
      "なつき度が高い状態で進化"
    else if optStrTruthy mv then
      mv.getD "" ++ "を覚えていると進化"
    else if optStrTruthy tm then
      tm.getD "" ++ "に進化"
    else
      "特殊な条件で進化"
  else
    if trig == "level-up" && optNatTruthy lvl then
      "Evolves at level " ++ toString (lvl.getD 0)
    else if trig == "use-item" && optStrTruthy itm then
      "Use " ++ itm.getD "" ++ " to evolve"
    else if optNatTruthy hp then
      "High friendship required"
    else if optStrTruthy mv then
      "Knows move " ++ mv.getD ""
    else if optStrTruthy tm then
      "Evolves during " ++ tm.getD ""
    else
      "Special condition"

/-- Models `logic.format_evolution_conditions(details, lang)` (with `item_map` the
table read by `load_item_name_map`).  An empty detail list is the falsy case of
`if not details`. -/
def format_evolution_conditions (details : List EvoDetail) (lang : String) (item_map : StrMap) : String :=
  if details.isEmpty then
    if lang == "日本語" then "条件不明" else "Unknown condition"
  else
    let texts := details.map (fun d => formatOneDetail d lang item_map)
    if lang == "日本語" then
      String.intercalate "、" texts
    else
      String.intercalate "; " texts

/-- The display entry built by `logic._make_entry`. -/
structure Entry where
  id : Nat
  name_en : String
  name : String
  types : List String
  img : Option String
  evolution_chain : Option ChainDoc
  «フォルム一覧» : List FormInfo
deriving Repr

/-- Models `logic._make_entry(entry, lang)` (with `type_map` the table read by
`load_type_name_map`). -/
def _make_entry (entry : Pokemon) (lang : String) (type_map : StrMap) : Entry :=
  { id := entry.«図鑑番号»
    name_en := entry.«英語名»
    name := if lang == "日本語" then entry.«日本語名» else entry.«英語名»
    types := translate_types entry.«タイプ» lang type_map
    img := entry.«画像»
    evolution_chain := entry.«進化チェーン»
    «フォルム一覧» := entry.«フォルム一覧» }

/-- The `for e in cache.values()` loop of `logic.get_pokemon_by_name_or_id`,
`q` already trimmed and lower-cased. -/
def findEntry (q lang : String) (type_map : StrMap) : List Pokemon → Option Entry
  | [] => none
  | e :: rest =>
    if toString e.«図鑑番号» == q || pyLower e.«英語名» == q then
      some (_make_entry e lang type_map)
    else if lang == "日本語" && pyLower e.«日本語名» == q then
      some (_make_entry e lang type_map)
    else
      findEntry q lang type_map rest

/-- Models `logic.get_pokemon_by_name_or_id(query, lang, cache)` (with `type_map` as
for `_make_entry`; the cache dict's `.values()` iterates in insertion order). -/
def get_pokemon_by_name_or_id (query lang : String) (cache : List Pokemon) (type_map : StrMap) : Option Entry :=
  findEntry (pyLower (pyStrip query)) lang type_map cache

/-- One node dict appended to `tree` by `logic.get_evolution_tree.traverse`. -/
structure TreeEntry where
  name : String
  name_en : String
  id : Nat
  img : Option String
  types : List String
  condition : String
deriving Repr

mutual

/-- Models `logic.get_evolution_tree.traverse(node, cond)`: the list of dicts this call
appends to the shared `tree` accumulator (a node absent from the cache returns
before appending, pruning the node and its whole subtree). -/
def traverseNode (cache : List Pokemon) (lang : String) (item_map type_map : StrMap) :
    ChainNode → String → List TreeEntry
  | .mk species _ children, cond =>
    match cacheGet cache species with
    | none => []
    | some entry =>
      { name := if lang == "日本語" then entry.«日本語名» else entry.«英語名»
        name_en := species
        id := entry.«図鑑番号»
        img := entry.«画像»
        types := translate_types entry.«タイプ» lang type_map
        condition := if cond == "" then (if lang == "日本語" then "条件不明" else "Unknown condition") else cond }
        :: traverseChildren cache lang item_map type_map children

/-- The `for evo in node.get("evolves_to", [])` loop inside `traverse`. -/
def traverseChildren (cache : List Pokemon) (lang : String) (item_map type_map : StrMap) :
    List ChainNode → List TreeEntry
  | [] => []
  | evo :: rest =>
    traverseNode cache lang item_map type_map evo
        (format_evolution_conditions evo.evolution_details lang item_map)
      ++ traverseChildren cache lang item_map type_map rest

end

/-- Models `logic.get_evolution_tree(base_en, lang, cache_dict, item_map)` (with
`type_map` as for `_make_entry`).  A `.error` result marks the line where
CPython raises: `root["進化チェーン"].get("chain", {})` on a null chain raises
`AttributeError`, and `traverse({})` on a chain document without a root node
raises `KeyError` at `node["species"]`. -/
def get_evolution_tree (base_en lang : String) (cache : List Pokemon)
    (item_map type_map : StrMap) : Except String (List TreeEntry) :=
  match cacheGet cache base_en with
  | none => .ok []
  | some root =>
    match root.«進化チェーン» with
    | none => .error "AttributeError: NoneType object has no attribute get"
    | some doc =>
      match doc.chain with
      | none => .error "KeyError: species"
      | some node => .ok (traverseNode cache lang item_map type_map node "")

/-! ### `generate_cache.py`: cache-building pipeline -/

/-- One attempt of `session.get(url)` as seen by `fetch_json`: either a response
with a status code and parsed body, or a raised network exception. -/
inductive HttpAttempt (α : Type) where
  | response (status : Nat) (body : α)
  | failure
deriving Repr, DecidableEq

/-- The `for attempt in range(retries)` loop of `generate_cache.fetch_json`.
`oracle n` is what the n-th `session.get` does.  The second component counts
the executed `asyncio.sleep(1)` calls (one after each caught exception). -/
def fetchJsonLoop {α : Type} (oracle : Nat → HttpAttempt α) (attempt retriesLeft : Nat) :
    Option α × Nat :=
  match retriesLeft with
  | 0 => (none, 0)
  | n + 1 =>
    match oracle attempt with
    | .response status body =>
      if status == 200 then (some body, 0) else (none, 0)
    | .failure =>
      let rest := fetchJsonLoop oracle (attempt + 1) n
      (rest.1, rest.2 + 1)

/-- Models `generate_cache.fetch_json(session, url, retries=3)` at its fixed default
retry bound. -/
def fetch_json {α : Type} (oracle : Nat → HttpAttempt α) : Option α × Nat :=
  fetchJsonLoop oracle 0 3

/-- The `for detail in evo.get("evolution_details", [])` body inside
`extract_evolution_condition_from_chain.search`: the condition text derived
from one detail record (every branch returns). -/
def conditionOfDetail (d : EvoDetail) (item_map : StrMap) : String :=
  let item := d.item
  let trig := d.trigger
  let level := d.min_level
  if optStrTruthy item then
    dictGet item_map (item.getD "") (item.getD "") ++ "を使う"
  else if optNatTruthy level then
    "Lv" ++ toString (level.getD 0) ++ "で進化"
  else if optStrTruthy trig then
    trig.getD "" ++ "で進化"
  else
    "進化条件不明"

/-- The inner `for detail in ...: return ...` loop: it returns on the very
first detail record, and falls through (`none`) only when the list is empty. -/
def firstDetailCondition (item_map : StrMap) : List EvoDetail → Option String
  | [] => none
  | d :: _ => some (conditionOfDetail d item_map)

mutual

/-- Models `extract_evolution_condition_from_chain.search(chain)`. -/
def searchNode (target : String) (item_map : StrMap) : ChainNode → String
  | .mk _ _ children => searchChildren target item_map children

/-- The `for evo in chain.get("evolves_to", [])` loop of `search`: on a species
match with a non-empty detail list it returns the first detail's condition,
otherwise it recurses into `evo` and returns that result when truthy (a
non-empty string), else continues with the remaining siblings. -/
def searchChildren (target : String) (item_map : StrMap) : List ChainNode → String
  | [] => "進化条件不明"
  | evo :: rest =>
    match (if evo.species == target then firstDetailCondition item_map evo.evolution_details else none) with
    | some c => c
    | none =>
      let result := searchNode target item_map evo
      if result == "" then searchChildren target item_map rest else result

end

/-- Models `generate_cache.extract_evolution_condition_from_chain(chain_data, target_name, item_map)`.
A document without a `chain` key yields `search({})`, whose `evolves_to` is
empty. -/
def extract_evolution_condition_from_chain (chain_data : ChainDoc) (target_name : String)
    (item_map : StrMap) : String :=
  searchNode target_name item_map (chain_data.chain.getD (.mk "" [] []))

/-- The parsed `/pokemon/{...}` form-detail document used by `extract_form_info`:
`sprites_official` is `sprites.other.official-artwork.front_default` and
`sprites_front` is `sprites.front_default`. -/
structure FormDetail where
  name : String
  species_url : Option String
  is_mega : Bool
  sprites_official : Option String
  sprites_front : Option String
deriving Repr

/-- The parsed species document: `evolution_chain_url` is
`species.get("evolution_chain", {}).get("url")` and `varieties` the list of
`variety["pokemon"]["url"]`. -/
structure SpeciesData where
  names : List NameEntry
  form_names : List NameEntry
  evolution_chain_url : Option String
  varieties : List String
deriving Repr

/-- One `version_group_details` element of a declared move. -/
structure MoveVersionDetail where
  version_group : String
  level_learned_at : Nat
  move_learn_method : String
deriving Repr, DecidableEq

/-- One element of the primary record's `moves` list (`m["move"]`). -/
structure MoveRef where
  name : String
  url : String
  version_group_details : List MoveVersionDetail
deriving Repr, DecidableEq

/-- The parsed move-detail document (only its `names` list is read). -/
structure MoveData where
  names : List NameEntry
deriving Repr, DecidableEq

/-- The parsed primary `/pokemon/{id}` record used by `fetch_pokemon` and
`fetch_pokemon_moves`. -/
structure PokemonData where
  id : Nat
  name : String
  types : List String
  sprites_official : Option String
  sprites_front : Option String
  species_url : String
  moves : List MoveRef
deriving Repr

/-- The network as the pipeline sees it: each kind of URL maps its request key
to the parsed document, or `none` when `fetch_json` returned `None`. -/
structure Fetcher where
  pokemonById : Nat → Option PokemonData
  pokemonByName : String → Option PokemonData
  speciesByUrl : String → Option SpeciesData
  chainByUrl : String → Option ChainDoc
  formByUrl : String → Option FormDetail
  moveByUrl : String → Option MoveData

/-- Models `generate_cache.extract_form_info(session, form_detail, item_map, evolution_chain)`. -/
def extract_form_info (f : Fetcher) (form_detail : FormDetail) (item_map : StrMap)
    (evolution_chain : Option ChainDoc) : FormInfo :=
  let form_name_en := form_detail.name
  let form_species_data :=
    match form_detail.species_url with
    | some u => f.speciesByUrl u
    | none => none
  let form_name_ja :=
    match form_species_data with
    | some sd => (((sd.names.find? (fun n => n.language == "ja-Hrkt")).map NameEntry.name).getD form_name_en)
    | none => form_name_en
  let form_label0 :=
    match form_species_data with
    | some sd => (((sd.form_names.find? (fun n => n.language == "ja-Hrkt")).map NameEntry.name).getD "")
    | none => ""
  let is_mega := form_detail.is_mega
  let form_label := if is_mega && form_label0 == "" then "メガのすがた" else form_label0
  let image_url := pyOr form_detail.sprites_official form_detail.sprites_front
  let evolution_condition :=
    match evolution_chain with
    | some ch => extract_evolution_condition_from_chain ch form_name_en item_map
    | none => ""
  { name_en := form_name_en
    name_ja := form_name_ja
    img := image_url
    form_label := form_label
    is_mega := is_mega
    evolution_condition := evolution_condition }

/-- Models `generate_cache.fetch_pokemon(session, pokemon_id, item_map)`. -/
def fetch_pokemon (f : Fetcher) (pokemon_id : Nat) (item_map : StrMap) : Option Pokemon :=
  match f.pokemonById pokemon_id with
  | none => none
  | some data =>
    let name_en := data.name
    let types := data.types
    let img := pyOr data.sprites_official data.sprites_front
    let species_data := f.speciesByUrl data.species_url
    let name_ja : Option String :=
      species_data.bind (fun sd => (sd.names.find? (fun n => n.language == "ja-Hrkt")).map NameEntry.name)
    let evolution_chain : Option ChainDoc :=
      species_data.bind (fun sd => sd.evolution_chain_url.bind f.chainByUrl)
    let forms_data : List FormInfo :=
      match species_data with
      | none => []
      | some sd =>
        sd.varieties.filterMap (fun form_url =>
          (f.formByUrl form_url).map (fun fd => extract_form_info f fd item_map evolution_chain))
    some
      { «図鑑番号» := data.id
        «英語名» := name_en
        «日本語名» := pyOrStr name_ja name_en
        «タイプ» := types
        «画像» := img
        «進化チェーン» := evolution_chain
        «フォルム一覧» := forms_data }

/-- One row appended to `moves_list` by `fetch_pokemon_moves`. -/
structure MoveRow where
  «ポケモン» : String
  «技名» : String
  «技名_日本語» : String
  «バージョン» : String
  «習得レベル» : Nat
  «習得方法» : String
deriving Repr, DecidableEq

/-- The `for m in data.get("moves", [])` loop of `fetch_pokemon_moves`.  When
the move-detail fetch returns `None`, CPython raises `AttributeError` at
`move_data.get("names", [])`; the `.error` result marks that raise. -/
def movesLoop (f : Fetcher) (pokemon_name : String) (version_map : StrMap) :
    List MoveRef → Except String (List MoveRow)
  | [] => .ok []
  | m :: rest =>
    match f.moveByUrl m.url with
    | none => .error "AttributeError: NoneType object has no attribute get"
    | some move_data =>
      let move_name_ja :=
        (((move_data.names.find? (fun n => n.language == "ja-Hrkt")).map NameEntry.name).getD m.name)
      let rows := m.version_group_details.map (fun v =>
        { «ポケモン» := pokemon_name
          «技名» := m.name
          «技名_日本語» := move_name_ja
          «バージョン» := dictGet version_map v.version_group v.version_group
          «習得レベル» := v.level_learned_at
          «習得方法» := v.move_learn_method })
      (movesLoop f pokemon_name version_map rest).map (fun tail => rows ++ tail)

/-- Models `generate_cache.fetch_pokemon_moves(session, pokemon_name, version_map)`. -/
def fetch_pokemon_moves (f : Fetcher) (pokemon_name : String) (version_map : StrMap) :
    Except String (List MoveRow) :=
  match f.pokemonByName pokemon_name with
  | none => .ok []
  | some data => movesLoop f pokemon_name version_map data.moves

/-- The fixed entity ID range of `main`: `range(1, 1026)`. -/
def pokemonIdRange : List Nat := List.range' 1 1025

/-- The comparison key of `sorted(pokemon_list, key=lambda x: x["図鑑番号"])`. -/
def pokemonLE (a b : Pokemon) : Prop := a.«図鑑番号» ≤ b.«図鑑番号»

instance : DecidableRel pokemonLE := fun a b => Nat.decLe a.«図鑑番号» b.«図鑑番号»

instance : IsTotal Pokemon pokemonLE := ⟨fun a b => Nat.le_total a.«図鑑番号» b.«図鑑番号»⟩

instance : IsTrans Pokemon pokemonLE := ⟨fun _ _ _ h h' => Nat.le_trans h h'⟩

/-- The aggregation step of `generate_cache.main`: the tasks' results arrive in
completion order `order` (a permutation of the scheduled IDs), falsy results
are dropped, and the collected records are sorted ascending by `図鑑番号`
(modelling `sorted(pokemon_list, key=lambda x: x["図鑑番号"])`). -/
def main_pokemon_list_sorted (f : Fetcher) (item_map : StrMap) (order : List Nat) : List Pokemon :=
  (order.filterMap (fun i => fetch_pokemon f i item_map)).insertionSort pokemonLE

/-! ### Helper lemmas for the claim theorems -/

/-- Appending a non-empty string yields a non-empty string (model of Python
string truthiness of the condition texts). -/
theorem str_append_ne_empty (a b : String) (hb : b.data ≠ []) : a ++ b ≠ "" := by
  intro h
  have hd := String.ext_iff.mp h
  rw [String.data_append] at hd
  exact hb (List.append_eq_nil.mp hd).2

/-- The last character of a string, used to separate the fixed suffixes of the
condition texts. -/
def lastChar (s : String) : Option Char := s.data.getLast?

theorem lastChar_append (a b : String) (hb : b.data ≠ []) :
    lastChar (a ++ b) = lastChar b := by
  unfold lastChar
  rw [String.data_append]
  exact List.getLast?_append_of_ne_nil _ hb

/-- The function `conditionOfDetail` never returns an empty string: every branch ends in a
fixed non-empty suffix or is a non-empty literal. -/
theorem conditionOfDetail_ne_empty (d : EvoDetail) (im : StrMap) :
    conditionOfDetail d im ≠ "" := by
  unfold conditionOfDetail
  dsimp only
  split
  · exact str_append_ne_empty _ "を使う" (by decide)
  · split
    · exact str_append_ne_empty _ "で進化" (by decide)
    · split
      · exact str_append_ne_empty _ "で進化" (by decide)
      · decide

mutual

/-- The recursive `search` always returns a truthy (non-empty) string: either a condition
text or the sentinel. -/
theorem searchNode_ne_empty (target : String) (im : StrMap) :
    (node : ChainNode) → searchNode target im node ≠ ""
  | .mk _ _ children => by
    rw [searchNode]
    exact searchChildren_ne_empty target im children

theorem searchChildren_ne_empty (target : String) (im : StrMap) :
    (l : List ChainNode) → searchChildren target im l ≠ ""
  | [] => by rw [searchChildren]; decide
  | evo :: rest => by
    rw [searchChildren]
    cases hm : (if evo.species == target then firstDetailCondition im evo.evolution_details else none) with
    | some c =>
      dsimp only
      rcases hc : evo.evolution_details with _ | ⟨d, ds⟩ <;> rw [hc] at hm <;>
        by_cases ht : evo.species == target <;> simp [ht, firstDetailCondition] at hm
      rw [← hm]
      exact conditionOfDetail_ne_empty d im
    | none =>
      dsimp only
      have hn := searchNode_ne_empty target im evo
      simp only [beq_iff_eq]
      rw [if_neg (by simpa using hn)]
      exact hn

end

theorem ChainNode.sizeOf_evolves_to_lt (n : ChainNode) : sizeOf n.evolves_to < sizeOf n := by
  cases n with
  | mk s d c => simp only [ChainNode.mk.sizeOf_spec, ChainNode.evolves_to]; omega

mutual

/-- The spec's words for the §4.3 condition search: a genuine depth-first
pre-order search over all children for the first node whose species equals the
target, its (first) detail yielding the condition.  Kept separate from
`searchNode`, which is translated from the source, so the two can be compared. -/
def specDfsNode (target : String) (item_map : StrMap) : ChainNode → Option String
  | .mk _ _ children => specDfsChildren target item_map children

/-- Depth-first over the child list: check a child, then its whole subtree,
then the later siblings — first species match wins. -/
def specDfsChildren (target : String) (item_map : StrMap) : List ChainNode → Option String
  | [] => none
  | evo :: rest =>
    if evo.species == target then
      some ((firstDetailCondition item_map evo.evolution_details).getD "進化条件不明")
    else
      match specDfsNode target item_map evo with
      | some c => some c
      | none => specDfsChildren target item_map rest

end

/-- The walk `search` actually performs: at each level only the first child is
examined (a completed recursive search always returns a truthy sentinel, so
later siblings are unreachable); descent continues into that first child. -/
def leftmostWalk (target : String) (item_map : StrMap) : List ChainNode → String
  | [] => "進化条件不明"
  | evo :: _ =>
    match (if evo.species == target then firstDetailCondition item_map evo.evolution_details else none) with
    | some c => c
    | none => leftmostWalk target item_map evo.evolves_to
termination_by l => sizeOf l
decreasing_by
  have := ChainNode.sizeOf_evolves_to_lt evo
  simp only [List.cons.sizeOf_spec]
  omega

mutual

theorem searchNode_eq_leftmost (target : String) (im : StrMap) :
    (node : ChainNode) → searchNode target im node = leftmostWalk target im node.evolves_to
  | .mk _ _ children => by
    rw [searchNode]
    exact searchChildren_eq_leftmost target im children

theorem searchChildren_eq_leftmost (target : String) (im : StrMap) :
    (l : List ChainNode) → searchChildren target im l = leftmostWalk target im l
  | [] => by rw [searchChildren, leftmostWalk]
  | evo :: rest => by
    rw [searchChildren, leftmostWalk]
    cases hm : (if evo.species == target then firstDetailCondition im evo.evolution_details else none) with
    | some c => rfl
    | none =>
      dsimp only
      have hn := searchNode_ne_empty target im evo
      rw [if_neg (by simpa using hn)]
      exact searchNode_eq_leftmost target im evo

end

mutual

/-- Every entry `traverse` emits corresponds to a slug present in the cache:
a node absent from the cache returns before appending, so neither it nor its
descendants can contribute an entry. -/
theorem traverse_mem_cache (cache : List Pokemon) (lang : String) (im tm : StrMap) :
    (node : ChainNode) → (cond : String) →
    ∀ e ∈ traverseNode cache lang im tm node cond, (cacheGet cache e.name_en).isSome
  | .mk species details children, cond => by
    intro e he
    rw [traverseNode] at he
    cases h : cacheGet cache species with
    | none => rw [h] at he; simp at he
    | some entry =>
      rw [h] at he
      rcases List.mem_cons.mp he with rfl | htail
      · simp [h]
      · exact traverseChildren_mem_cache cache lang im tm children e htail

theorem traverseChildren_mem_cache (cache : List Pokemon) (lang : String) (im tm : StrMap) :
    (l : List ChainNode) →
    ∀ e ∈ traverseChildren cache lang im tm l, (cacheGet cache e.name_en).isSome
  | [] => by intro e he; rw [traverseChildren] at he; simp at he
  | evo :: rest => by
    intro e he
    rw [traverseChildren] at he
    rcases List.mem_append.mp he with h1 | h2
    · exact traverse_mem_cache cache lang im tm evo _ e h1
    · exact traverseChildren_mem_cache cache lang im tm rest e h2

end

/-- When the upstream provider is keyed by ID (the record fetched at
`/pokemon/{i}` carries `id == i`), an assembled record carries the requested
ID. -/
theorem fetch_pokemon_id (f : Fetcher) (im : StrMap) (i : Nat) (p : Pokemon)
    (hkey : ∀ j d, f.pokemonById j = some d → d.id = j)
    (h : fetch_pokemon f i im = some p) : p.«図鑑番号» = i := by
  unfold fetch_pokemon at h
  cases hd : f.pokemonById i with
  | none => rw [hd] at h; simp at h
  | some data =>
    rw [hd] at h
    dsimp only at h
    injection h with h
    rw [← h]
    exact hkey i data hd

/-- Joining a one-element text list is the text itself. -/
theorem intercalate_singleton (sep x : String) : String.intercalate sep [x] = x := rfl

/-! ### Claim C1: priority of level vs. item in `format_evolution_conditions` -/

/-- A detail record with trigger `use-item`, a minimum level and an item, as an
item-triggered stone evolution with a coincidental `min_level` would carry. -/
def c1use : EvoDetail :=
  { trigger := some "use-item", min_level := some 16, item := some "fire-stone",
    min_happiness := none, time_of_day := none, known_move := none }

/-- The same fields but with trigger `level-up`. -/
def c1lvl : EvoDetail :=
  { trigger := some "level-up", min_level := some 16, item := some "fire-stone",
    min_happiness := none, time_of_day := none, known_move := none }

/-- C1 counterexample: an item-triggered detail with an also-present
`min_level = 16` is NOT classified as a plain level-up —
`format_evolution_conditions` renders the item-use text in both locales,
because rule (a) requires the trigger to be `level-up`. -/
theorem c1_counterexample :
    format_evolution_conditions [c1use] "English" [] = "Use fire-stone to evolve" ∧
    format_evolution_conditions [c1use] "English" [] ≠ "Evolves at level 16" ∧
    format_evolution_conditions [c1use] "日本語" [] = "fire-stoneを使う" ∧
    format_evolution_conditions [c1use] "日本語" [] ≠ "16レベルで進化" := by
  refine ⟨rfl, by decide, rfl, by decide⟩

/-- C1 (amended): for a detail record with both a truthy minimum level and a
truthy item, rule (a) checks the trigger kind: when the trigger is `level-up`
the record resolves to the level-up text, and when the trigger is `use-item`
it resolves to the item-use text, in both locales. -/
theorem c1_trigger_checked (im : StrMap) (d : EvoDetail) (n : Nat) (s : String)
    (hl : d.min_level = some n) (hn : n ≠ 0) (hi : d.item = some s) (hs : s ≠ "") :
    (d.trigger = some "level-up" →
      format_evolution_conditions [d] "日本語" im = toString n ++ "レベルで進化" ∧
      format_evolution_conditions [d] "English" im = "Evolves at level " ++ toString n) ∧
    (d.trigger = some "use-item" →
      format_evolution_conditions [d] "日本語" im = safe_translate s im ++ "を使う" ∧
      format_evolution_conditions [d] "English" im = "Use " ++ s ++ " to evolve") := by
  have hn' : (n == 0) = false := by simpa using hn
  have hs' : (s == "") = false := by simpa using hs
  constructor <;> intro ht <;> constructor <;>
    simp [format_evolution_conditions, formatOneDetail, intercalate_singleton,
      hl, hi, ht, optNatTruthy, optStrTruthy, hn', hs']

/-- C1 witness: `c1_trigger_checked` applied at level 16 and item `fire-stone`. -/
theorem c1_witness :
    format_evolution_conditions [c1lvl] "日本語" [] = toString 16 ++ "レベルで進化" ∧
    format_evolution_conditions [c1use] "English" [] = "Use " ++ "fire-stone" ++ " to evolve" :=
  ⟨((c1_trigger_checked [] c1lvl 16 "fire-stone" rfl (by decide) rfl (by decide)).1 rfl).1,
   ((c1_trigger_checked [] c1use 16 "fire-stone" rfl (by decide) rfl (by decide)).2 rfl).2⟩

/-! ### Claim C2: `get_evolution_tree` prunes absent nodes and never raises -/

/-- A cached entity whose stored raw evolution chain is null — exactly what
`fetch_pokemon` writes when the species fetch fails. -/
def c2pikachuNullChain : Pokemon :=
  { «図鑑番号» := 25, «英語名» := "pikachu", «日本語名» := "ピカチュウ",
    «タイプ» := ["electric"], «画像» := none, «進化チェーン» := none, «フォルム一覧» := [] }

/-- C2 counterexample: on a cached entity whose raw evolution chain is null,
`get_evolution_tree` raises (`root["進化チェーン"].get(...)` on `None`)
instead of returning a pruned tree, refuting the unconditional "never raises". -/
theorem c2_counterexample :
    (cacheGet [c2pikachuNullChain] "pikachu").isSome = true ∧
    get_evolution_tree "pikachu" "日本語" [c2pikachuNullChain] [] [] =
      Except.error "AttributeError: NoneType object has no attribute get" :=
  ⟨rfl, rfl⟩

/-- C2 (amended): whenever the root entity is cached and its stored evolution
chain is present with a root node, `get_evolution_tree` returns without
raising, and every node in the returned sequence has its slug present in the
entity cache — a node absent from the cache is pruned together with all of its
descendants.  (With a null chain it raises, see `c2_counterexample`.) -/
theorem c2_pruned_and_ok (base lang : String) (cache : List Pokemon) (im tm : StrMap)
    (root : Pokemon) (doc : ChainDoc) (node : ChainNode)
    (hroot : cacheGet cache base = some root)
    (hdoc : root.«進化チェーン» = some doc)
    (hnode : doc.chain = some node) :
    get_evolution_tree base lang cache im tm = Except.ok (traverseNode cache lang im tm node "") ∧
    ∀ e ∈ traverseNode cache lang im tm node "", (cacheGet cache e.name_en).isSome := by
  constructor
  · simp [get_evolution_tree, hroot, hdoc, hnode]
  · exact fun e he => traverse_mem_cache cache lang im tm node "" e he

/-- A two-node chain whose evolved species (`raichu`) is absent from the cache. -/
def c2chainNode : ChainNode := .mk "pikachu" [] [.mk "raichu" [] []]

/-- The same entity with that chain attached. -/
def c2pikachuWithChain : Pokemon :=
  { «図鑑番号» := 25, «英語名» := "pikachu", «日本語名» := "ピカチュウ",
    «タイプ» := ["electric"], «画像» := none,
    «進化チェーン» := some ⟨some c2chainNode⟩, «フォルム一覧» := [] }

/-- C2 witness: `c2_pruned_and_ok` applied to a one-entity cache whose chain
names an absent `raichu`: the call succeeds and the absent branch is pruned. -/
theorem c2_witness :
    get_evolution_tree "pikachu" "日本語" [c2pikachuWithChain] [] [] =
      Except.ok [{ name := "ピカチュウ", name_en := "pikachu", id := 25, img := none,
                   types := ["electric"], condition := "条件不明" }] := by
  have h := c2_pruned_and_ok "pikachu" "日本語" [c2pikachuWithChain] [] []
    c2pikachuWithChain ⟨some c2chainNode⟩ c2chainNode rfl rfl rfl
  rw [h.1]
  rfl

/-! ### Claim C3: `fetch_pokemon_moves` on failed fetches -/

/-- A primary record declaring one move whose detail URL will fail to fetch. -/
def c3data : PokemonData :=
  { id := 25, name := "pikachu", types := ["electric"],
    sprites_official := none, sprites_front := none,
    species_url := "species/25",
    moves := [{ name := "thunder-shock", url := "move/84",
                version_group_details := [{ version_group := "red-blue",
                                            level_learned_at := 1,
                                            move_learn_method := "level-up" }] }] }

/-- A fetcher where only the primary record succeeds; every move-detail fetch
returns absent. -/
def c3fetcher : Fetcher :=
  { pokemonById := fun _ => none,
    pokemonByName := fun nm => if nm == "pikachu" then some c3data else none,
    speciesByUrl := fun _ => none, chainByUrl := fun _ => none,
    formByUrl := fun _ => none, moveByUrl := fun _ => none }

/-- A fetcher where even the primary record fetch returns absent. -/
def c3fetcherNoPrimary : Fetcher :=
  { pokemonById := fun _ => none, pokemonByName := fun _ => none,
    speciesByUrl := fun _ => none, chainByUrl := fun _ => none,
    formByUrl := fun _ => none, moveByUrl := fun _ => none }

/-- C3: at the failing input (a declared move whose detail fetch returns
absent) the code raises `AttributeError` at `move_data.get("names", [])`
instead of recording the move with the slug as name fallback; a failed primary
fetch does return the empty list as claimed. -/
theorem c3_move_detail_crash :
    fetch_pokemon_moves c3fetcher "pikachu" [] =
      Except.error "AttributeError: NoneType object has no attribute get" ∧
    fetch_pokemon_moves c3fetcherNoPrimary "pikachu" [] = Except.ok [] :=
  ⟨rfl, rfl⟩

/-! ### Claim C4: retry behaviour of `fetch_json` -/

/-- C4: `fetch_json` returns absent immediately (no retry, no wait) on a
non-200 status; retries on exceptions up to the fixed bound of 3 attempts with
a 1-unit sleep after each caught exception; and returns absent after
exhausting all retries. -/
theorem c4_fetch_json_retry {α : Type} (oracle : Nat → HttpAttempt α) :
    (∀ s b, s ≠ 200 → oracle 0 = .response s b → fetch_json oracle = (none, 0)) ∧
    ((∀ i, i < 3 → oracle i = .failure) → fetch_json oracle = (none, 3)) ∧
    (∀ b, oracle 0 = .failure → oracle 1 = .response 200 b → fetch_json oracle = (some b, 1)) := by
  refine ⟨?_, ?_, ?_⟩
  · intro s b hs h0
    have hs' : (s == 200) = false := by simpa using hs
    simp [fetch_json, fetchJsonLoop, h0, hs']
  · intro h
    simp [fetch_json, fetchJsonLoop, h 0 (by omega), h 1 (by omega), h 2 (by omega)]
  · intro b h0 h1
    simp [fetch_json, fetchJsonLoop, h0, h1]

/-- C4 witness: `c4_fetch_json_retry` at a 404 response, at a permanently
failing connection, and at a connection that succeeds on the second attempt. -/
theorem c4_witness :
    fetch_json (fun _ => (HttpAttempt.response 404 0 : HttpAttempt Nat)) = (none, 0) ∧
    fetch_json (fun _ => (HttpAttempt.failure : HttpAttempt Nat)) = (none, 3) ∧
    fetch_json (fun i => if i == 0 then HttpAttempt.failure
                         else (HttpAttempt.response 200 7 : HttpAttempt Nat)) = (some 7, 1) :=
  ⟨(c4_fetch_json_retry _).1 404 0 (by decide) rfl,
   (c4_fetch_json_retry _).2.1 (fun i _ => rfl),
   (c4_fetch_json_retry _).2.2 7 rfl rfl⟩

/-! ### Claim C5: the written collection is sorted and has unique IDs -/

/-- C5: for any completion order (a permutation of the scheduled ID range) and
any subset of fetches succeeding, the collection `main` writes is sorted
ascending by numeric ID, and — the upstream being keyed by ID — all IDs in it
are pairwise distinct. -/
theorem c5_sorted_unique (f : Fetcher) (im : StrMap) (order : List Nat)
    (hperm : order.Perm pokemonIdRange)
    (hkey : ∀ j d, f.pokemonById j = some d → d.id = j) :
    (main_pokemon_list_sorted f im order).Sorted pokemonLE ∧
    (main_pokemon_list_sorted f im order).Pairwise
      (fun a b => a.«図鑑番号» ≠ b.«図鑑番号») := by
  constructor
  · exact List.sorted_insertionSort pokemonLE _
  · have hnd : order.Nodup := hperm.nodup_iff.mpr (List.nodup_range' 1 1025)
    have hfm : (order.filterMap (fun i => fetch_pokemon f i im)).Pairwise
        (fun a b => a.«図鑑番号» ≠ b.«図鑑番号») := by
      rw [List.pairwise_filterMap]
      refine hnd.imp ?_
      intro i j hij p hp q hq
      rw [Option.mem_def] at hp hq
      have hpi := fetch_pokemon_id f im i p hkey hp
      have hqj := fetch_pokemon_id f im j q hkey hq
      rw [hpi, hqj]
      exact hij
    have hperm2 := List.perm_insertionSort pokemonLE
      (order.filterMap (fun i => fetch_pokemon f i im))
    exact (hperm2.pairwise_iff (fun h e => h e.symm)).mpr hfm

/-- A run in which every entity fetch fails. -/
def c5fetcher : Fetcher :=
  { pokemonById := fun _ => none, pokemonByName := fun _ => none,
    speciesByUrl := fun _ => none, chainByUrl := fun _ => none,
    formByUrl := fun _ => none, moveByUrl := fun _ => none }

/-- C5 witness: `c5_sorted_unique` at the identity completion order with an
entirely failing upstream. -/
theorem c5_witness :
    (main_pokemon_list_sorted c5fetcher [] pokemonIdRange).Sorted pokemonLE ∧
    (main_pokemon_list_sorted c5fetcher [] pokemonIdRange).Pairwise
      (fun a b => a.«図鑑番号» ≠ b.«図鑑番号») :=
  c5_sorted_unique c5fetcher [] pokemonIdRange (List.Perm.refl _)
    (fun j d h => by simp [c5fetcher] at h)

/-! ### Claim C6: the lookup is locale-sensitive -/

/-- The Japanese-locale arm of the lookup loop finds (the first) entity whose
lower-cased Japanese display name equals the query, provided no entity matches
by ID string or slug. -/
theorem findEntry_ja (q : String) (tm : StrMap) (cache : List Pokemon)
    (hja : ∃ e ∈ cache, pyLower e.«日本語名» = q)
    (hid : ∀ e ∈ cache, toString e.«図鑑番号» ≠ q)
    (hen : ∀ e ∈ cache, pyLower e.«英語名» ≠ q) :
    ∃ e ∈ cache, pyLower e.«日本語名» = q ∧
      findEntry q "日本語" tm cache = some (_make_entry e "日本語" tm) := by
  induction cache with
  | nil => simp at hja
  | cons e rest ih =>
    have hidh := hid e (by simp)
    have henh := hen e (by simp)
    rw [findEntry]
    rw [if_neg (by simp [hidh, henh])]
    by_cases hjah : pyLower e.«日本語名» = q
    · rw [if_pos (by simp [hjah])]
      exact ⟨e, by simp, hjah, rfl⟩
    · rw [if_neg (by simp [hjah])]
      have hja' : ∃ x ∈ rest, pyLower x.«日本語名» = q := by
        rcases hja with ⟨x, hx, hxq⟩
        rcases List.mem_cons.mp hx with rfl | hxr
        · exact absurd hxq hjah
        · exact ⟨x, hxr, hxq⟩
      obtain ⟨x, hxr, hxq, hres⟩ := ih hja'
        (fun x hx => hid x (by simp [hx]))
        (fun x hx => hen x (by simp [hx]))
      exact ⟨x, by simp [hxr], hxq, hres⟩

/-- Under any non-Japanese locale the Japanese-name arm is disabled, so a
query matching no ID string and no slug finds nothing. -/
theorem findEntry_other (q lang : String) (tm : StrMap) (hlang : lang ≠ "日本語")
    (cache : List Pokemon)
    (hid : ∀ e ∈ cache, toString e.«図鑑番号» ≠ q)
    (hen : ∀ e ∈ cache, pyLower e.«英語名» ≠ q) :
    findEntry q lang tm cache = none := by
  induction cache with
  | nil => rfl
  | cons e rest ih =>
    rw [findEntry, if_neg (by simp [hid e (by simp), hen e (by simp)]),
      if_neg (by simp [hlang])]
    exact ih (fun x hx => hid x (by simp [hx])) (fun x hx => hen x (by simp [hx]))

/-- C6: for a query that (after trimming and lower-casing) equals some cached
entity's Japanese display name but no entity's ID string or slug,
`get_pokemon_by_name_or_id` returns that entity's display entry under the
Japanese locale and absent under every other locale. -/
theorem c6_locale_sensitive (query : String) (cache : List Pokemon) (tm : StrMap)
    (hja : ∃ e ∈ cache, pyLower e.«日本語名» = pyLower (pyStrip query))
    (hid : ∀ e ∈ cache, toString e.«図鑑番号» ≠ pyLower (pyStrip query))
    (hen : ∀ e ∈ cache, pyLower e.«英語名» ≠ pyLower (pyStrip query)) :
    (∃ e ∈ cache, pyLower e.«日本語名» = pyLower (pyStrip query) ∧
      get_pokemon_by_name_or_id query "日本語" cache tm = some (_make_entry e "日本語" tm)) ∧
    ∀ lang, lang ≠ "日本語" → get_pokemon_by_name_or_id query lang cache tm = none := by
  constructor
  · exact findEntry_ja _ tm cache hja hid hen
  · exact fun lang hl => findEntry_other _ lang tm hl cache hid hen

/-- The cached entity queried in the C6 witness. -/
def c6pikachu : Pokemon :=
  { «図鑑番号» := 25, «英語名» := "pikachu", «日本語名» := "ピカチュウ",
    «タイプ» := ["electric"], «画像» := none, «進化チェーン» := none, «フォルム一覧» := [] }

/-- C6 witness: `c6_locale_sensitive` at the query `ピカチュウ`: found under
the Japanese locale, absent under `English`. -/
theorem c6_witness :
    get_pokemon_by_name_or_id "ピカチュウ" "日本語" [c6pikachu] [] ≠ none ∧
    get_pokemon_by_name_or_id "ピカチュウ" "English" [c6pikachu] [] = none := by
  have h := c6_locale_sensitive "ピカチュウ" [c6pikachu] []
    ⟨c6pikachu, by simp, by decide⟩ (by decide) (by decide)
  refine ⟨?_, h.2 "English" (by decide)⟩
  obtain ⟨e, _, _, heq⟩ := h.1
  simp [heq]

/-! ### Claim C7: species-fetch failure degrades gracefully -/

/-- C7: when the primary record fetch succeeds but the species fetch returns
absent, the assembled record falls back to the slug as display name, has a
null evolution chain and an empty forms list. -/
theorem c7_species_absent (f : Fetcher) (im : StrMap) (pid : Nat) (data : PokemonData)
    (h1 : f.pokemonById pid = some data) (h2 : f.speciesByUrl data.species_url = none) :
    fetch_pokemon f pid im = some
      { «図鑑番号» := data.id, «英語名» := data.name, «日本語名» := data.name,
        «タイプ» := data.types, «画像» := pyOr data.sprites_official data.sprites_front,
        «進化チェーン» := none, «フォルム一覧» := [] } := by
  simp [fetch_pokemon, h1, h2, pyOrStr]

/-- The primary record of entity 25 used in the C7 witness. -/
def c7pikachuData : PokemonData :=
  { id := 25, name := "pikachu", types := ["electric"],
    sprites_official := some "artwork.png", sprites_front := some "front.png",
    species_url := "species/25", moves := [] }

/-- A fetcher that serves the primary record of ID 25 but no species data. -/
def c7fetcher : Fetcher :=
  { pokemonById := fun i => if i == 25 then some c7pikachuData else none,
    pokemonByName := fun _ => none, speciesByUrl := fun _ => none,
    chainByUrl := fun _ => none, formByUrl := fun _ => none, moveByUrl := fun _ => none }

/-- C7 witness: `c7_species_absent` at entity ID 25, slug `pikachu`. -/
theorem c7_witness :
    fetch_pokemon c7fetcher 25 [] = some
      { «図鑑番号» := 25, «英語名» := "pikachu", «日本語名» := "pikachu",
        «タイプ» := ["electric"], «画像» := some "artwork.png",
        «進化チェーン» := none, «フォルム一覧» := [] } :=
  c7_species_absent c7fetcher [] 25 c7pikachuData rfl rfl

/-! ### Claim C8: the condition search is not a depth-first search -/

/-- An item-use detail on the second branch's node. -/
def c8jolteonDetail : EvoDetail :=
  { trigger := some "use-item", min_level := none, item := some "thunder-stone",
    min_happiness := none, time_of_day := none, known_move := none }

/-- A branching chain (as for `eevee`): two sibling evolutions, the searched
species sitting on the second branch. -/
def c8eeveeChain : ChainDoc :=
  ⟨some (.mk "eevee" [] [
    .mk "vaporeon" [{ trigger := some "use-item", min_level := none, item := some "water-stone",
                      min_happiness := none, time_of_day := none, known_move := none }] [],
    .mk "jolteon" [c8jolteonDetail] []])⟩

/-- A trivially absent fetcher for the no-chain part of the counterexample. -/
def c8fetcher : Fetcher :=
  { pokemonById := fun _ => none, pokemonByName := fun _ => none,
    speciesByUrl := fun _ => none, chainByUrl := fun _ => none,
    formByUrl := fun _ => none, moveByUrl := fun _ => none }

/-- C8 counterexample: the species `jolteon` sits on the second sibling branch
with an item detail, so a depth-first first-match search (the spec's words,
`specDfsNode`) finds its condition — but the code returns the sentinel, never
visiting a later sibling; and with no evolution chain at all the cached
condition is the empty string, not the sentinel. -/
theorem c8_counterexample :
    extract_evolution_condition_from_chain c8eeveeChain "jolteon" [] = "進化条件不明" ∧
    specDfsNode "jolteon" [] (c8eeveeChain.chain.getD (.mk "" [] [])) =
      some "thunder-stoneを使う" ∧
    (extract_form_info c8fetcher
      { name := "pikachu-gmax", species_url := none, is_mega := false,
        sprites_official := none, sprites_front := none } [] none).evolution_condition = "" ∧
    "" ≠ "進化条件不明" :=
  ⟨rfl, rfl, rfl, by decide⟩

/-- C8 (amended): the condition the cache builder computes walks only the
chain's leftmost branch — at each level just the first child is examined (a
species match there with a non-empty detail list yields its first detail's
condition, otherwise the walk descends into that first child), the sentinel
`進化条件不明` is returned when the walk bottoms out, and a form with no
evolution chain at all gets the empty string, not the sentinel. -/
theorem c8_leftmost (target : String) (im : StrMap) (cd : ChainDoc)
    (f : Fetcher) (fd : FormDetail) :
    extract_evolution_condition_from_chain cd target im =
      leftmostWalk target im ((cd.chain.getD (.mk "" [] [])).evolves_to) ∧
    (extract_form_info f fd im none).evolution_condition = "" := by
  constructor
  · exact searchNode_eq_leftmost target im (cd.chain.getD (.mk "" [] []))
  · rfl

/-! ### Claim C9: unknown-condition vs. special-condition texts -/

/-- C9: an empty evolution-detail list yields the unknown-condition text in
both locales, while a non-empty detail record matching none of the rules
yields the distinct special-condition text. -/
theorem c9_unknown_vs_special (im : StrMap) (d : EvoDetail)
    (h1 : ¬(d.trigger.getD "" = "level-up" ∧ optNatTruthy d.min_level = true))
    (h2 : ¬(d.trigger.getD "" = "use-item" ∧ optStrTruthy d.item = true))
    (h3 : optNatTruthy d.min_happiness = false)
    (h4 : optStrTruthy d.known_move = false)
    (h5 : optStrTruthy d.time_of_day = false) :
    format_evolution_conditions [] "日本語" im = "条件不明" ∧
    format_evolution_conditions [] "English" im = "Unknown condition" ∧
    format_evolution_conditions [d] "日本語" im = "特殊な条件で進化" ∧
    format_evolution_conditions [d] "English" im = "Special condition" ∧
    "特殊な条件で進化" ≠ "条件不明" ∧
    "Special condition" ≠ "Unknown condition" := by
  refine ⟨rfl, rfl, ?_, ?_, by decide, by decide⟩ <;>
    simp [format_evolution_conditions, formatOneDetail, intercalate_singleton,
      h1, h2, h3, h4, h5]

/-- A detail record with every optional field absent. -/
def c9none : EvoDetail :=
  { trigger := none, min_level := none, item := none,
    min_happiness := none, time_of_day := none, known_move := none }

/-- C9 witness: `c9_unknown_vs_special` at the all-absent detail record. -/
theorem c9_witness :
    format_evolution_conditions [] "日本語" [] = "条件不明" ∧
    format_evolution_conditions [] "English" [] = "Unknown condition" ∧
    format_evolution_conditions [c9none] "日本語" [] = "特殊な条件で進化" ∧
    format_evolution_conditions [c9none] "English" [] = "Special condition" ∧
    "特殊な条件で進化" ≠ "条件不明" ∧
    "Special condition" ≠ "Unknown condition" :=
  c9_unknown_vs_special [] c9none (by decide) (by decide) rfl rfl rfl

/-! ### Claim C10: the cache-side extractor checks item before level -/

/-- C10: in the cache builder's `extract_evolution_condition_from_chain` the
item field is checked before the minimum level, so a detail with both yields
the item-use text (never the level text), also through a chain whose matched
node carries that detail — the opposite priority of the query layer's
`format_evolution_conditions`, which renders the level text for the same
record when its trigger is `level-up`. -/
theorem c10_item_before_level (im : StrMap) (d : EvoDetail) (s : String) (n : Nat) (t : String)
    (hi : d.item = some s) (hs : s ≠ "") (hl : d.min_level = some n) (hn : n ≠ 0) :
    conditionOfDetail d im = dictGet im s s ++ "を使う" ∧
    conditionOfDetail d im ≠ "Lv" ++ toString n ++ "で進化" ∧
    extract_evolution_condition_from_chain ⟨some (.mk "root" [] [.mk t [d] []])⟩ t im =
      dictGet im s s ++ "を使う" ∧
    (d.trigger = some "level-up" →
      format_evolution_conditions [d] "日本語" im = toString n ++ "レベルで進化") := by
  have hs' : (s == "") = false := by simpa using hs
  have hn' : (n == 0) = false := by simpa using hn
  have hc : conditionOfDetail d im = dictGet im s s ++ "を使う" := by
    simp [conditionOfDetail, hi, optStrTruthy, hs']
  refine ⟨hc, ?_, ?_, ?_⟩
  · intro heq
    rw [hc] at heq
    have hlast := congrArg lastChar heq
    rw [lastChar_append _ "を使う" (by decide), lastChar_append _ "で進化" (by decide)] at hlast
    revert hlast
    decide
  · simp [extract_evolution_condition_from_chain, searchNode, searchChildren,
      ChainNode.species, ChainNode.evolution_details, firstDetailCondition, hc]
  · intro ht
    simp [format_evolution_conditions, formatOneDetail, intercalate_singleton,
      hl, ht, optNatTruthy, hn']

/-- A level-up detail that also carries an item, for the C10 witness. -/
def c10detail : EvoDetail :=
  { trigger := some "level-up", min_level := some 16, item := some "fire-stone",
    min_happiness := none, time_of_day := none, known_move := none }

/-- C10 witness: `c10_item_before_level` at the `fire-stone` + level-16 detail:
the pipeline caches the item text while the query layer formats the level
text. -/
theorem c10_witness :
    conditionOfDetail c10detail [("fire-stone", "ほのおのいし")] = "ほのおのいしを使う" ∧
    format_evolution_conditions [c10detail] "日本語" [("fire-stone", "ほのおのいし")] = "16レベルで進化" := by
  have h := c10_item_before_level [("fire-stone", "ほのおのいし")] c10detail "fire-stone" 16 "raichu"
    rfl (by decide) rfl (by decide)
  exact ⟨h.1, h.2.2.2 rfl⟩
